import Mathlib

/-!
# Verification of the multi-channel alert delivery engine

Shallow embedding of `scripts/alert_manager.py` (class `AlertManager`) and
proofs about it.  Python dictionaries keyed by channel are modelled as total
functions out of `AlertChannel` (reads in the source always use
`.get(key)` / `.get(key, 0)`, so `Option`/default-0 functions are faithful);
the channel senders perform network I/O and are modelled by an environment
that says, per channel kind, what the transport did.  Timestamps are
modelled as integers (seconds); `datetime` comparisons become integer
comparisons.  Match scores and money amounts are modelled as rationals.
-/

/-- `AlertChannel` enum of `alert_manager.py`. -/
inductive AlertChannel where
  | email
  | sms
  | telegram
  | slack
  | websocket
  | push
  deriving DecidableEq

/-- `AlertChannelConfig` dataclass: a channel, its enabled flag and its
transport-specific config dict.  Config values can be `None` in Python
(`preferences.get(...)` misses), hence `Option String` values. -/
structure AlertChannelConfig where
  channel : AlertChannel
  enabled : Bool
  config : List (String × Option String)
  deriving DecidableEq

/-- `Alert` dataclass of `alert_manager.py`.  `delivery_status` and
`retry_count` are the per-channel dicts; `retry_count` is always read with
`.get(name, 0)` in the source, so it is modelled as a total function with
default 0. -/
structure Alert where
  id : String
  investor_id : String
  opportunity_id : String
  title : String
  description : String
  match_score : ℚ
  timestamp : Int
  expires_at : Int
  priority : String
  status : String
  notification_attempts : Nat
  channels : List AlertChannelConfig
  delivery_status : AlertChannel → Option String
  retry_count : AlertChannel → Nat

/-- Point update of a channel-keyed map (a Python dict write `d[k] = v`). -/
def mapSet {β : Type} (f : AlertChannel → β) (k : AlertChannel) (v : β) :
    AlertChannel → β :=
  fun k' => if k' = k then v else f k'

/-- Outcome of one transport attempt, as seen by the `try` block of
`send_alert`: the sender returned `True`, returned `False`, or the attempt
raised an exception (caught by the `except` clause). -/
inductive SendOutcome where
  | success
  | failure
  | raised
  deriving DecidableEq

/-- `send_alert_email`: on transport success it mutates the alert
(`alert.status = "sent"`, `alert.notification_attempts += 1`) and returns
`True`; every exception is caught internally and it returns `False` with the
alert untouched.  `transportOk` is whether the SMTP send succeeded. -/
def send_alert_email (transportOk : Bool) (alert : Alert) : Alert × Bool :=
  if transportOk then
    ({ alert with
        status := "sent",
        notification_attempts := alert.notification_attempts + 1 }, true)
  else (alert, false)

/-- One iteration of the channel loop in `send_alert`: skip disabled
channels; otherwise run the sender for the channel's kind.  If the attempt
raised, record `results[kind] = False` and `delivery_status[kind] = "error"`
(the `except` branch — note it does not touch `retry_count`).  Otherwise
record the boolean result, set `delivery_status[kind]` to `"delivered"` or
`"failed"`, and on failure increment `retry_count[kind]`.  The email kind
goes through `send_alert_email`, which also mutates `status` on success. -/
def sendAlertStep (env : AlertChannel → SendOutcome)
    (acc : Alert × (AlertChannel → Option Bool)) (cc : AlertChannelConfig) :
    Alert × (AlertChannel → Option Bool) :=
  if cc.enabled then
    match env cc.channel with
    | SendOutcome.raised =>
        ({ acc.1 with
            delivery_status := mapSet acc.1.delivery_status cc.channel (some "error") },
         mapSet acc.2 cc.channel (some false))
    | o =>
        let attempt :=
          if cc.channel = AlertChannel.email then
            send_alert_email (o = SendOutcome.success) acc.1
          else (acc.1, o = SendOutcome.success)
        let alert := attempt.1
        let success := attempt.2
        let alert :=
          { alert with
              delivery_status := mapSet alert.delivery_status cc.channel
                (some (if success then "delivered" else "failed")) }
        let alert :=
          if success then alert
          else
            { alert with
                retry_count := mapSet alert.retry_count cc.channel
                  (alert.retry_count cc.channel + 1) }
        (alert, mapSet acc.2 cc.channel (some success))
  else acc

/-- `send_alert`: loop over `alert.channels` accumulating the mutated alert
and the `results` dict (empty at entry), then persist the alert (the
persisted document is the returned alert). -/
def sendAlert (env : AlertChannel → SendOutcome) (alert : Alert) :
    Alert × (AlertChannel → Option Bool) :=
  alert.channels.foldl (sendAlertStep env) (alert, fun _ => none)

/-- Hard-coded retry limit in `retry_failed_alerts` (`< 3`). -/
def max_retries : Nat := 3

/-- Body of the per-channel loop of `retry_failed_alerts`: a channel is
retried when its `delivery_status` is `"failed"` or `"error"` and its
`retry_count` is below `max_retries`.  The retry goes through the same
senders as first delivery (they return a boolean and do not raise; the
email sender again mutates `status` on success).  On success
`delivery_status[kind] = "delivered"`; on failure `retry_count[kind]` is
incremented.  `env` gives each kind's transport result. -/
def retryChannelStep (env : AlertChannel → Bool) (alert : Alert)
    (cc : AlertChannelConfig) : Alert :=
  let name := cc.channel
  if (alert.delivery_status name = some "failed" ∨
      alert.delivery_status name = some "error") ∧
      alert.retry_count name < max_retries then
    let attempt :=
      if name = AlertChannel.email then send_alert_email (env name) alert
      else (alert, env name)
    let alert := attempt.1
    if attempt.2 then
      { alert with delivery_status := mapSet alert.delivery_status name (some "delivered") }
    else
      { alert with retry_count := mapSet alert.retry_count name (alert.retry_count name + 1) }
  else alert

/-- Effect of one sweep of `retry_failed_alerts` on a single alert: the
inner `for channel in alert.channels` loop. -/
def retryAlert (env : AlertChannel → Bool) (alert : Alert) : Alert :=
  alert.channels.foldl (retryChannelStep env) alert

/-- `retry_failed_alerts`: one sweep over every alert in the store. -/
def retry_failed_alerts (env : AlertChannel → Bool) (store : List Alert) :
    List Alert :=
  store.map (retryAlert env)

/-- Effect of `cleanup_expired_alerts` on one alert: alerts whose
`expires_at` is strictly before the current time get `status = "expired"`;
others are untouched. -/
def cleanupAlert (now : Int) (alert : Alert) : Alert :=
  if alert.expires_at < now then { alert with status := "expired" } else alert

/-- `cleanup_expired_alerts`: selects every alert with `expires_at < now`
and sets its status to `"expired"` (then persists it).  Since `expires_at`
is never written, selecting first and then mutating is the same as mapping
`cleanupAlert` over the store. -/
def cleanup_expired_alerts (now : Int) (store : List Alert) : List Alert :=
  store.map (cleanupAlert now)

/-- Opportunity dict as consumed by `create_alert` /
`_calculate_priority`: `urgent` and `competitive_situation` are read with
`.get(key, False)`, so absent keys are `false` here. -/
structure Opportunity where
  id : String
  name : String
  sector : String
  investment_amount : ℚ
  location : String
  deal_type : String
  urgent : Bool
  competitive_situation : Bool

/-- Round-half-to-even of a rational to an integer: the integer nearest to
`s`, with ties going to the even neighbour (the IEEE 754 default). -/
def rhe (s : ℚ) : ℤ :=
  if s - ⌊s⌋ < 1/2 then ⌊s⌋
  else if 1/2 < s - ⌊s⌋ then ⌊s⌋ + 1
  else if ⌊s⌋ % 2 = 0 then ⌊s⌋ else ⌊s⌋ + 1

/-- Round a rational to the nearest multiple of `2^e`, ties to even. -/
def roundAt (e : ℤ) (q : ℚ) : ℚ :=
  (rhe (q * (2:ℚ)^(-e)) : ℚ) * (2:ℚ)^e

/-- Round a rational to the nearest IEEE 754 binary64 value (round to
nearest, ties to even): a value of magnitude in `[2^k, 2^(k+1))` is rounded
to a multiple of `2^(k-52)`, keeping 53 significant bits.  Overflow and
subnormals cannot occur for the magnitudes `_calculate_priority` computes
with, so they are not modelled. -/
def roundDouble (q : ℚ) : ℚ :=
  if 0 < q then roundAt (Int.log 2 q - 52) q
  else if q < 0 then -roundAt (Int.log 2 (-q) - 52) (-q)
  else 0

/-- Binary64 addition: IEEE 754 requires the correctly rounded exact sum,
which is what CPython's float `+` performs. -/
def fadd (x y : ℚ) : ℚ := roundDouble (x + y)

/-- The final value of the `priority_score` local of `_calculate_priority`,
with the arithmetic the runtime actually performs: Python floats are
binary64, so each `+=` is a rounded addition (`fadd`) and the literals
0.2 / 0.1 denote the binary64 values nearest those decimals. -/
def priorityScore (match_score : ℚ) (opportunity : Opportunity) : ℚ :=
  let priority_score := match_score
  let priority_score :=
    if opportunity.urgent then fadd priority_score (roundDouble (2/10))
    else priority_score
  let priority_score :=
    if opportunity.investment_amount ≥ 10000000 then
      fadd priority_score (roundDouble (1/10))
    else priority_score
  if opportunity.competitive_situation then
    fadd priority_score (roundDouble (1/10))
  else priority_score

/-- `_calculate_priority`: start from the match score, add 0.2 if the deal
is urgent, 0.1 if the amount is at least 10,000,000, 0.1 if competitively
contested, then bucket the sum.  The additions and the comparison
thresholds are binary64 (`priorityScore`, `roundDouble`): in particular
`0.7 + 0.2` rounds to `0.8999999999999999`, strictly below the double
nearest 0.9, which the exact-arithmetic reading of the spec misses. -/
def calculate_priority (match_score : ℚ) (opportunity : Opportunity) : String :=
  if priorityScore match_score opportunity ≥ roundDouble (9/10) then "urgent"
  else if priorityScore match_score opportunity ≥ roundDouble (7/10) then "high"
  else if priorityScore match_score opportunity ≥ roundDouble (5/10) then "medium"
  else "low"

/-- Rank of the priority buckets, for stating monotonicity. -/
def priorityRank : String → Nat
  | "urgent" => 3
  | "high" => 2
  | "medium" => 1
  | _ => 0

/-- The priority computation as the spec words it: the sum of the match
score and the three bonuses in exact (real-number) arithmetic, then the
inclusive bucket map with the decimal boundaries 0.9/0.7/0.5.  The
refinement comparison target for `calculate_priority`, which instead
computes in binary64 like the source. -/
def prioritySpec (match_score : ℚ) (urgent : Bool) (amount : ℚ)
    (competitive : Bool) : String :=
  if match_score + (if urgent then 2/10 else 0) +
      (if amount ≥ 10000000 then 1/10 else 0) +
      (if competitive then 1/10 else 0) ≥ 9/10 then "urgent"
  else if match_score + (if urgent then 2/10 else 0) +
      (if amount ≥ 10000000 then 1/10 else 0) +
      (if competitive then 1/10 else 0) ≥ 7/10 then "high"
  else if match_score + (if urgent then 2/10 else 0) +
      (if amount ≥ 10000000 then 1/10 else 0) +
      (if competitive then 1/10 else 0) ≥ 5/10 then "medium"
  else "low"

/-- The per-investor alert-preferences JSON document, as `create_alert`
reads it: the optional `"channels"` list and the optional per-channel
address keys.  An investor with no stored document behaves as
`emptyPreferences` (Python `self.alert_preferences.get(id, {})`). -/
structure Preferences where
  channels : Option (List String)
  email : Option String
  phone : Option String
  telegram_chat_id : Option String
  slack_channel : Option String
  device_token : Option String

/-- The empty preferences dict `{}`. -/
def emptyPreferences : Preferences :=
  ⟨none, none, none, none, none, none⟩

/-- The channel-list construction of `create_alert`: email is included when
`"email" ∈ preferences.get("channels", ["email"])` (so by default); every
other kind is included when it appears in `preferences.get("channels", [])`.
Each included channel is enabled and carries the raw preference value as its
address (possibly `None` — no validation happens). -/
def buildChannels (preferences : Preferences) (investor_id : String) :
    List AlertChannelConfig :=
  let channels : List AlertChannelConfig := []
  let channels :=
    if (preferences.channels.getD ["email"]).contains "email" then
      channels ++ [⟨AlertChannel.email, true, [("email", preferences.email)]⟩]
    else channels
  let channels :=
    if (preferences.channels.getD []).contains "sms" then
      channels ++ [⟨AlertChannel.sms, true, [("phone", preferences.phone)]⟩]
    else channels
  let channels :=
    if (preferences.channels.getD []).contains "telegram" then
      channels ++ [⟨AlertChannel.telegram, true,
        [("chat_id", preferences.telegram_chat_id)]⟩]
    else channels
  let channels :=
    if (preferences.channels.getD []).contains "slack" then
      channels ++ [⟨AlertChannel.slack, true,
        [("channel", preferences.slack_channel)]⟩]
    else channels
  let channels :=
    if (preferences.channels.getD []).contains "websocket" then
      channels ++ [⟨AlertChannel.websocket, true,
        [("connection_id", some investor_id)]⟩]
    else channels
  let channels :=
    if (preferences.channels.getD []).contains "push" then
      channels ++ [⟨AlertChannel.push, true,
        [("device_token", preferences.device_token)]⟩]
    else channels
  channels

/-- `_generate_alert_title` (the sector-emoji prefix is elided as purely
presentational). -/
def generate_alert_title (opportunity : Opportunity) : String :=
  "New " ++ opportunity.sector ++ " Investment Opportunity: " ++ opportunity.name

/-- `_generate_enhanced_description` (numeric formatting and the optional
`additional_data` sections are elided; no claim depends on the text). -/
def generate_enhanced_description (opportunity : Opportunity) : String :=
  "Exclusive opportunity matching your investment profile: " ++
    opportunity.name ++ " (" ++ opportunity.sector ++ ")"

/-- `create_alert`: read the investor's stored preferences (the empty dict
when none), build the channel list, construct the alert in status
`"pending"` with empty delivery dicts, expiry `now + expiration_hours`
hours, priority from `_calculate_priority`, then store and persist it
unconditionally.  The returned pair is the alert and the updated store.
The datetime suffix of the Python id is elided (`now` stands in). -/
def create_alert (store : List Alert) (stored_preferences : Option Preferences)
    (investor_id : String) (opportunity : Opportunity) (match_score : ℚ)
    (now : Int) (expiration_hours : Int) : Alert × List Alert :=
  let preferences := stored_preferences.getD emptyPreferences
  let channels := buildChannels preferences investor_id
  let alert : Alert :=
    { id := "alert_" ++ toString (store.length + 1) ++ "_" ++ toString now,
      investor_id := investor_id,
      opportunity_id := opportunity.id,
      title := generate_alert_title opportunity,
      description := generate_enhanced_description opportunity,
      match_score := match_score,
      timestamp := now,
      expires_at := now + expiration_hours * 3600,
      priority := calculate_priority match_score opportunity,
      status := "pending",
      notification_attempts := 0,
      channels := channels,
      delivery_status := fun _ => none,
      retry_count := fun _ => 0 }
  (alert, store ++ [alert])

/-! ## Concrete fixtures used by witnesses and counterexamples -/

/-- A minimal pending alert (no channels). -/
def baseAlert : Alert :=
  { id := "a1", investor_id := "inv1", opportunity_id := "opp1",
    title := "t", description := "d", match_score := 1/2,
    timestamp := 0, expires_at := 100, priority := "low",
    status := "pending", notification_attempts := 0,
    channels := [], delivery_status := fun _ => none, retry_count := fun _ => 0 }

/-- An enabled SMS channel config with a phone number. -/
def smsCfg : AlertChannelConfig :=
  ⟨AlertChannel.sms, true, [("phone", some "p")]⟩

/-- An enabled email channel config with an address. -/
def emailCfg : AlertChannelConfig :=
  ⟨AlertChannel.email, true, [("email", some "e")]⟩

/-- Pending alert with a single enabled SMS channel. -/
def aSms : Alert := { baseAlert with channels := [smsCfg] }

/-- Pending alert with a single enabled email channel. -/
def aEmail : Alert := { baseAlert with channels := [emailCfg] }

/-- Expired alert with a single enabled SMS channel. -/
def aExpSms : Alert := { baseAlert with status := "expired"
                                        channels := [smsCfg] }

/-- Expired alert with a single enabled email channel. -/
def aExpEmail : Alert := { baseAlert with status := "expired"
                                          channels := [emailCfg] }

/-- Already-expired alert with no channels. -/
def aExpired : Alert := { baseAlert with status := "expired" }

/-- Alert whose SMS channel already failed and has exhausted its retries. -/
def a3 : Alert :=
  { baseAlert with channels := [smsCfg]
                   delivery_status := mapSet (fun _ => none) AlertChannel.sms (some "failed")
                   retry_count := mapSet (fun _ => 0) AlertChannel.sms 3 }

/-- One failing dispatch, keeping only the mutated alert. -/
def dispatchFail (a : Alert) : Alert :=
  (sendAlert (fun _ => SendOutcome.failure) a).1

/-- The urgent, large, non-competitive opportunity of the spec's scenario. -/
def opp0 : Opportunity :=
  { id := "o1", name := "n", sector := "technology",
    investment_amount := 15000000, location := "l", deal_type := "acq",
    urgent := true, competitive_situation := false }

/-- An opportunity contributing no priority bonuses at all. -/
def oppPlain : Opportunity :=
  { id := "o2", name := "n2", sector := "fintech",
    investment_amount := 1000, location := "l", deal_type := "acq",
    urgent := false, competitive_situation := false }

/-- An urgent but small, non-competitive opportunity: only the 0.2 bonus
applies. -/
def oppUrgentSmall : Opportunity :=
  { id := "o3", name := "n3", sector := "fintech",
    investment_amount := 1000, location := "l", deal_type := "acq",
    urgent := true, competitive_situation := false }

/-- Preferences selecting SMS but storing no phone number. -/
def prefsSmsNoPhone : Preferences :=
  ⟨some ["sms"], none, none, none, none, none⟩

/-- Preferences selecting SMS with full contact addresses stored. -/
def prefsSmsFull : Preferences :=
  ⟨some ["sms"], some "e@x", some "+351", some "tg", some "#sl", some "tok"⟩

/-- Preferences with no `"channels"` key but with a stored email address. -/
def prefsEmailAddr : Preferences :=
  ⟨none, some "a@b", none, none, none, none⟩

/-! ## Map update lemmas -/

theorem mapSet_same {β : Type} (f : AlertChannel → β) (k : AlertChannel) (v : β) :
    mapSet f k v k = v := by simp [mapSet]

theorem mapSet_other {β : Type} (f : AlertChannel → β) {k k' : AlertChannel} (v : β)
    (h : k' ≠ k) : mapSet f k v k' = f k' := by simp [mapSet, h]

/-! ## Dispatcher lemmas -/

/-- A dispatch step aimed at another kind (or at a disabled channel) leaves
the delivery status, retry count and result entry of kind `k` alone. -/
theorem sendAlertStep_preserve (env : AlertChannel → SendOutcome)
    (acc : Alert × (AlertChannel → Option Bool)) (cc : AlertChannelConfig)
    (k : AlertChannel) (h : cc.channel ≠ k ∨ cc.enabled = false) :
    (sendAlertStep env acc cc).1.delivery_status k = acc.1.delivery_status k ∧
    (sendAlertStep env acc cc).1.retry_count k = acc.1.retry_count k ∧
    (sendAlertStep env acc cc).2 k = acc.2 k := by
  rcases h with h | h
  · unfold sendAlertStep
    by_cases hen : cc.enabled
    · cases henv : env cc.channel <;>
        simp [hen, henv, send_alert_email, mapSet, Ne.symm h] <;>
        split_ifs <;>
        simp [mapSet, Ne.symm h]
    · simp [hen]
  · simp [sendAlertStep, h]

/-- Folding dispatch steps over a channel list that contains no enabled
config of kind `k` leaves kind `k`'s entries alone. -/
theorem sendAlert_foldl_preserve (env : AlertChannel → SendOutcome)
    (l : List AlertChannelConfig) (k : AlertChannel)
    (h : ∀ cc ∈ l, cc.channel ≠ k ∨ cc.enabled = false) :
    ∀ acc : Alert × (AlertChannel → Option Bool),
    (List.foldl (sendAlertStep env) acc l).1.delivery_status k =
      acc.1.delivery_status k ∧
    (List.foldl (sendAlertStep env) acc l).1.retry_count k =
      acc.1.retry_count k ∧
    (List.foldl (sendAlertStep env) acc l).2 k = acc.2 k := by
  induction l with
  | nil => simp
  | cons cc l ih =>
    intro acc
    have hcc := h cc (by simp)
    have hrest : ∀ cc' ∈ l, cc'.channel ≠ k ∨ cc'.enabled = false :=
      fun cc' hm => h cc' (by simp [hm])
    have hstep := sendAlertStep_preserve env acc cc k hcc
    have hfold := ih hrest (sendAlertStep env acc cc)
    simp only [List.foldl_cons]
    exact ⟨hfold.1.trans hstep.1, hfold.2.1.trans hstep.2.1,
      hfold.2.2.trans hstep.2.2⟩

/-- What one dispatch step writes for its own (enabled) kind. -/
theorem sendAlertStep_set (env : AlertChannel → SendOutcome)
    (acc : Alert × (AlertChannel → Option Bool)) (cc : AlertChannelConfig)
    (hen : cc.enabled = true) :
    (sendAlertStep env acc cc).1.delivery_status cc.channel =
      some (match env cc.channel with
            | SendOutcome.success => "delivered"
            | SendOutcome.failure => "failed"
            | SendOutcome.raised => "error") ∧
    (sendAlertStep env acc cc).1.retry_count cc.channel =
      (if env cc.channel = SendOutcome.failure then
        acc.1.retry_count cc.channel + 1
      else acc.1.retry_count cc.channel) ∧
    (sendAlertStep env acc cc).2 cc.channel =
      some (decide (env cc.channel = SendOutcome.success)) := by
  unfold sendAlertStep
  cases henv : env cc.channel <;>
    by_cases hch : cc.channel = AlertChannel.email <;>
    simp_all [send_alert_email, mapSet]

/-- Boolean bookkeeping for combining one dispatch step's status write with
the rest of the loop's. -/
theorem statusIfCombine (c d b : Bool) (s t : String) :
    (if (d && b) = true then t else if (c && b) = true then t else s) =
      if ((c || d) && b) = true then t else s := by
  cases c <;> cases d <;> cases b <;> simp

/-- The overall status after the dispatch loop: it is `"sent"` exactly when
some enabled email config was processed and the email transport succeeded;
otherwise the status the accumulator started with.  Only
`send_alert_email` ever writes `status`. -/
theorem sendAlert_foldl_status (env : AlertChannel → SendOutcome)
    (l : List AlertChannelConfig) :
    ∀ (a : Alert) (res : AlertChannel → Option Bool),
    (List.foldl (sendAlertStep env) (a, res) l).1.status =
      if (l.any fun cc => cc.enabled && cc.channel = AlertChannel.email) &&
         (env AlertChannel.email = SendOutcome.success) then "sent"
      else a.status := by
  induction l with
  | nil => simp
  | cons cc l ih =>
    intro a res
    simp only [List.foldl_cons, List.any_cons]
    have hstep : (sendAlertStep env (a, res) cc).1.status =
        if (cc.enabled && cc.channel = AlertChannel.email) &&
           (env AlertChannel.email = SendOutcome.success) then "sent"
        else a.status := by
      unfold sendAlertStep
      by_cases hen : cc.enabled
      · by_cases hch : cc.channel = AlertChannel.email
        · cases henv : env cc.channel <;>
            simp_all [send_alert_email, mapSet]
        · cases henv : env cc.channel <;>
            simp_all [send_alert_email, mapSet]
      · simp [hen]
    rcases hp : sendAlertStep env (a, res) cc with ⟨a₁, res₁⟩
    rw [hp] at hstep
    have := ih a₁ res₁
    rw [this, hstep]
    exact statusIfCombine _ _ _ _ _

/-- The `results` dict written by a dispatch step does not depend on the
accumulated alert, only on the channel config and the environment. -/
theorem sendAlertStep_results_indep (env : AlertChannel → SendOutcome)
    (cc : AlertChannelConfig) (a a' : Alert) (res : AlertChannel → Option Bool) :
    (sendAlertStep env (a, res) cc).2 = (sendAlertStep env (a', res) cc).2 := by
  unfold sendAlertStep
  by_cases hen : cc.enabled
  · cases henv : env cc.channel <;>
      by_cases hch : cc.channel = AlertChannel.email <;>
      simp_all [send_alert_email]
  · simp [hen]

/-- The whole `results` dict of the dispatch loop does not depend on the
accumulated alert. -/
theorem sendAlert_foldl_results_indep (env : AlertChannel → SendOutcome)
    (l : List AlertChannelConfig) :
    ∀ (res : AlertChannel → Option Bool) (a a' : Alert),
    (List.foldl (sendAlertStep env) (a, res) l).2 =
      (List.foldl (sendAlertStep env) (a', res) l).2 := by
  induction l with
  | nil => simp
  | cons cc l ih =>
    intro res a a'
    simp only [List.foldl_cons]
    rcases hp : sendAlertStep env (a, res) cc with ⟨a₁, r₁⟩
    rcases hp' : sendAlertStep env (a', res) cc with ⟨a₁', r₁'⟩
    have hr : r₁ = r₁' := by
      have := sendAlertStep_results_indep env cc a a' res
      rw [hp, hp'] at this
      exact this
    rw [hr]
    exact ih r₁' a₁ a₁'

/-- A dispatch loop over channels that are all disabled does nothing. -/
theorem sendAlert_foldl_disabled (env : AlertChannel → SendOutcome)
    (l : List AlertChannelConfig) (h : ∀ cc ∈ l, cc.enabled = false) :
    ∀ acc, List.foldl (sendAlertStep env) acc l = acc := by
  induction l with
  | nil => simp
  | cons cc l ih =>
    intro acc
    have h0 : cc.enabled = false := h cc (by simp)
    have hrest : ∀ cc' ∈ l, cc'.enabled = false := fun cc' hm => h cc' (by simp [hm])
    simp only [List.foldl_cons, sendAlertStep, h0]
    simpa using ih hrest acc

/-! ## Retry sweeper lemmas -/

/-- One retry step can only leave `status` alone or set it to `"sent"`
(the latter via `send_alert_email`). -/
theorem retryChannelStep_status (env : AlertChannel → Bool) (a : Alert)
    (cc : AlertChannelConfig) :
    (retryChannelStep env a cc).status = a.status ∨
    (retryChannelStep env a cc).status = "sent" := by
  unfold retryChannelStep
  by_cases hel : (a.delivery_status cc.channel = some "failed" ∨
      a.delivery_status cc.channel = some "error") ∧
      a.retry_count cc.channel < max_retries
  · by_cases hch : cc.channel = AlertChannel.email <;>
      cases henv : env cc.channel <;>
      simp_all [send_alert_email]
  · simp [hel]

/-- A whole retry sweep over one alert can only leave `status` alone or set
it to `"sent"`. -/
theorem retryAlert_foldl_status (env : AlertChannel → Bool)
    (l : List AlertChannelConfig) :
    ∀ a : Alert,
    (List.foldl (retryChannelStep env) a l).status = a.status ∨
    (List.foldl (retryChannelStep env) a l).status = "sent" := by
  induction l with
  | nil => simp
  | cons cc l ih =>
    intro a
    simp only [List.foldl_cons]
    rcases ih (retryChannelStep env a cc) with h | h
    · rcases retryChannelStep_status env a cc with h' | h'
      · exact Or.inl (h.trans h')
      · exact Or.inr (h.trans h')
    · exact Or.inr h

/-- A retry step keeps `retry_count` at or below `max_retries` for every
kind that is at or below it (it only ever increments counts that are
strictly below the limit). -/
theorem retryChannelStep_rc_bound (env : AlertChannel → Bool) (a : Alert)
    (cc : AlertChannelConfig) (k : AlertChannel)
    (h : a.retry_count k ≤ max_retries) :
    (retryChannelStep env a cc).retry_count k ≤ max_retries := by
  unfold retryChannelStep
  by_cases hel : (a.delivery_status cc.channel = some "failed" ∨
      a.delivery_status cc.channel = some "error") ∧
      a.retry_count cc.channel < max_retries
  · by_cases hk : k = cc.channel
    · subst hk
      by_cases hch : cc.channel = AlertChannel.email <;>
        cases henv : env cc.channel <;>
        simp_all [send_alert_email, mapSet] <;>
        omega
    · by_cases hch : cc.channel = AlertChannel.email <;>
        cases henv : env cc.channel <;>
        simp_all [send_alert_email, mapSet]
  · simp [hel, h]

/-- An exhausted kind (`retry_count ≥ max_retries`) is never touched by a
retry step: neither its count nor its delivery status changes. -/
theorem retryChannelStep_exhausted (env : AlertChannel → Bool) (a : Alert)
    (cc : AlertChannelConfig) (k : AlertChannel)
    (h : max_retries ≤ a.retry_count k) :
    (retryChannelStep env a cc).retry_count k = a.retry_count k ∧
    (retryChannelStep env a cc).delivery_status k = a.delivery_status k := by
  unfold retryChannelStep
  by_cases hel : (a.delivery_status cc.channel = some "failed" ∨
      a.delivery_status cc.channel = some "error") ∧
      a.retry_count cc.channel < max_retries
  · by_cases hk : k = cc.channel
    · subst hk
      exact absurd hel.2 (not_lt.mpr h)
    · by_cases hch : cc.channel = AlertChannel.email <;>
        cases henv : env cc.channel <;>
        simp_all [send_alert_email, mapSet]
  · simp [hel]

/-- Retry-sweep fold: the bound and the exhausted-kind invariance extend
from one step to the whole per-alert loop. -/
theorem retryAlert_foldl_rc (env : AlertChannel → Bool)
    (l : List AlertChannelConfig) :
    ∀ a : Alert, ∀ k : AlertChannel,
    (a.retry_count k ≤ max_retries →
      (List.foldl (retryChannelStep env) a l).retry_count k ≤ max_retries) ∧
    (max_retries ≤ a.retry_count k →
      (List.foldl (retryChannelStep env) a l).retry_count k = a.retry_count k ∧
      (List.foldl (retryChannelStep env) a l).delivery_status k =
        a.delivery_status k) := by
  induction l with
  | nil => simp
  | cons cc l ih =>
    intro a k
    simp only [List.foldl_cons]
    constructor
    · intro h
      exact (ih (retryChannelStep env a cc) k).1
        (retryChannelStep_rc_bound env a cc k h)
    · intro h
      have hstep := retryChannelStep_exhausted env a cc k h
      have hrec := (ih (retryChannelStep env a cc) k).2 (by omega)
      exact ⟨hrec.1.trans hstep.1, hrec.2.trans hstep.2⟩

/-! ## Expiry sweeper lemmas -/

/-- `cleanupAlert` is idempotent on a single alert. -/
theorem cleanupAlert_idem (now : Int) (a : Alert) :
    cleanupAlert now (cleanupAlert now a) = cleanupAlert now a := by
  unfold cleanupAlert
  by_cases h : a.expires_at < now <;> simp [h]

/-! ## Binary64 rounding lemmas -/

theorem rhe_ge_floor (s : ℚ) : ⌊s⌋ ≤ rhe s := by
  unfold rhe
  split_ifs <;> omega

theorem rhe_le_floor_add_one (s : ℚ) : rhe s ≤ ⌊s⌋ + 1 := by
  unfold rhe
  split_ifs <;> omega

theorem rhe_mono {s t : ℚ} (h : s ≤ t) : rhe s ≤ rhe t := by
  have hf : ⌊s⌋ ≤ ⌊t⌋ := Int.floor_mono h
  rcases lt_or_eq_of_le hf with hlt | heq
  · calc rhe s ≤ ⌊s⌋ + 1 := rhe_le_floor_add_one s
      _ ≤ ⌊t⌋ := by omega
      _ ≤ rhe t := rhe_ge_floor t
  · unfold rhe
    rw [← heq]
    split_ifs <;> first | omega | (exfalso; linarith)

theorem rhe_eq_of_lt {s : ℚ} (n : ℤ) (h1 : (n:ℚ) ≤ s) (h2 : s < (n:ℚ) + 1/2) :
    rhe s = n := by
  have hf : ⌊s⌋ = n := Int.floor_eq_iff.mpr ⟨h1, by linarith⟩
  unfold rhe
  rw [hf, if_pos (by linarith)]

theorem rhe_eq_of_gt {s : ℚ} (n : ℤ) (h1 : (n:ℚ) + 1/2 < s) (h2 : s < (n:ℚ) + 1) :
    rhe s = n + 1 := by
  have hf : ⌊s⌋ = n := Int.floor_eq_iff.mpr ⟨by linarith, h2⟩
  unfold rhe
  rw [hf, if_neg (by linarith), if_pos (by linarith)]

theorem rhe_eq_tie_even {s : ℚ} (n : ℤ) (h : s = (n:ℚ) + 1/2) (hp : n % 2 = 0) :
    rhe s = n := by
  have hf : ⌊s⌋ = n := Int.floor_eq_iff.mpr ⟨by rw [h]; linarith, by rw [h]; linarith⟩
  unfold rhe
  rw [hf, if_neg (by rw [h]; linarith), if_neg (by rw [h]; linarith), if_pos hp]

theorem rhe_eq_tie_odd {s : ℚ} (n : ℤ) (h : s = (n:ℚ) + 1/2) (hp : n % 2 = 1) :
    rhe s = n + 1 := by
  have hf : ⌊s⌋ = n := Int.floor_eq_iff.mpr ⟨by rw [h]; linarith, by rw [h]; linarith⟩
  unfold rhe
  rw [hf, if_neg (by rw [h]; linarith), if_neg (by rw [h]; linarith), if_neg (by omega)]

theorem two_zpow_pos (e : ℤ) : (0:ℚ) < 2^e := by positivity

theorem two_zpow_mul (a b : ℤ) : (2:ℚ)^a * (2:ℚ)^b = (2:ℚ)^(a+b) :=
  (zpow_add₀ (by norm_num : (2:ℚ) ≠ 0) a b).symm

theorem roundAt_mono (e : ℤ) {x y : ℚ} (h : x ≤ y) :
    roundAt e x ≤ roundAt e y := by
  unfold roundAt
  have hs : x * (2:ℚ)^(-e) ≤ y * (2:ℚ)^(-e) :=
    mul_le_mul_of_nonneg_right h (le_of_lt (two_zpow_pos (-e)))
  have := rhe_mono hs
  exact mul_le_mul_of_nonneg_right (by exact_mod_cast this) (le_of_lt (two_zpow_pos e))

/-- Rounding a value of the binade `[2^k, 2^(k+1))` cannot fall below
`2^k`. -/
theorem roundAt_ge_binade_bot {k : ℤ} {q : ℚ} (h : (2:ℚ)^k ≤ q) :
    (2:ℚ)^k ≤ roundAt (k - 52) q := by
  unfold roundAt
  have hs : ((2^52 : ℤ) : ℚ) ≤ q * (2:ℚ)^(-(k-52)) := by
    have := mul_le_mul_of_nonneg_right h (le_of_lt (two_zpow_pos (-(k-52))))
    calc ((2^52 : ℤ) : ℚ) = (2:ℚ)^(k + -(k-52)) := by
          rw [show k + -(k-52) = (52:ℤ) by ring]
          norm_num
      _ = (2:ℚ)^k * (2:ℚ)^(-(k-52)) := (two_zpow_mul _ _).symm
      _ ≤ q * (2:ℚ)^(-(k-52)) := this
  have hfl : (2^52 : ℤ) ≤ ⌊q * (2:ℚ)^(-(k-52))⌋ := Int.le_floor.mpr hs
  have hr : (2^52 : ℤ) ≤ rhe (q * (2:ℚ)^(-(k-52))) :=
    le_trans hfl (rhe_ge_floor _)
  calc (2:ℚ)^k = ((2^52 : ℤ) : ℚ) * (2:ℚ)^(k-52) := by
        rw [show (((2^52 : ℤ)) : ℚ) = (2:ℚ)^(52:ℤ) by norm_num, two_zpow_mul,
          show (52 : ℤ) + (k - 52) = k by ring]
    _ ≤ (rhe (q * (2:ℚ)^(-(k-52))) : ℚ) * (2:ℚ)^(k-52) :=
        mul_le_mul_of_nonneg_right (by exact_mod_cast hr) (le_of_lt (two_zpow_pos _))

/-- Rounding a value of the binade `[2^k, 2^(k+1))` cannot exceed
`2^(k+1)`. -/
theorem roundAt_le_binade_top {k : ℤ} {q : ℚ} (h : q < (2:ℚ)^(k+1)) :
    roundAt (k - 52) q ≤ (2:ℚ)^(k+1) := by
  unfold roundAt
  have hs : q * (2:ℚ)^(-(k-52)) < ((2^53 : ℤ) : ℚ) := by
    have := mul_lt_mul_of_pos_right h (two_zpow_pos (-(k-52)))
    calc q * (2:ℚ)^(-(k-52)) < (2:ℚ)^(k+1) * (2:ℚ)^(-(k-52)) := this
      _ = (2:ℚ)^(k+1 + -(k-52)) := two_zpow_mul _ _
      _ = ((2^53 : ℤ) : ℚ) := by
          rw [show k + 1 + -(k-52) = (53:ℤ) by ring]
          norm_num
  have hfl : ⌊q * (2:ℚ)^(-(k-52))⌋ < 2^53 := Int.floor_lt.mpr hs
  have hr : rhe (q * (2:ℚ)^(-(k-52))) ≤ 2^53 :=
    le_trans (rhe_le_floor_add_one _) (by omega)
  calc (rhe (q * (2:ℚ)^(-(k-52))) : ℚ) * (2:ℚ)^(k-52)
      ≤ ((2^53 : ℤ) : ℚ) * (2:ℚ)^(k-52) :=
        mul_le_mul_of_nonneg_right (by exact_mod_cast hr) (le_of_lt (two_zpow_pos _))
    _ = (2:ℚ)^(k+1) := by
        rw [show (((2^53 : ℤ)) : ℚ) = (2:ℚ)^(53:ℤ) by norm_num, two_zpow_mul,
          show (53 : ℤ) + (k - 52) = k + 1 by ring]

theorem log2_of_bounds {q : ℚ} {k : ℤ} (hq : 0 < q)
    (h1 : (2:ℚ)^k ≤ q) (h2 : q < (2:ℚ)^(k+1)) : Int.log 2 q = k := by
  have h1n : ((2:ℕ):ℚ)^k ≤ q := by exact_mod_cast h1
  have h2n : q < ((2:ℕ):ℚ)^(k+1) := by exact_mod_cast h2
  have ha := (Int.zpow_le_iff_le_log (by norm_num) hq).mp h1n
  have hb := (Int.lt_zpow_iff_log_lt (by norm_num) hq).mp h2n
  omega

theorem roundDouble_pos_eq {q : ℚ} (hq : 0 < q) :
    roundDouble q = roundAt (Int.log 2 q - 52) q := by
  unfold roundDouble
  rw [if_pos hq]

theorem roundDouble_pos {q : ℚ} (hq : 0 < q) : 0 < roundDouble q := by
  rw [roundDouble_pos_eq hq]
  have h1 : (2:ℚ)^(Int.log 2 q) ≤ q := Int.zpow_log_le_self (by norm_num) hq
  exact lt_of_lt_of_le (two_zpow_pos _) (roundAt_ge_binade_bot h1)

/-- Correct rounding is monotone, so binary64 arithmetic preserves order of
positive values. -/
theorem roundDouble_mono {x y : ℚ} (hx : 0 < x) (hxy : x ≤ y) :
    roundDouble x ≤ roundDouble y := by
  have hy : 0 < y := lt_of_lt_of_le hx hxy
  rw [roundDouble_pos_eq hx, roundDouble_pos_eq hy]
  have hkl : Int.log 2 x ≤ Int.log 2 y := Int.log_mono_right hx hxy
  rcases eq_or_lt_of_le hkl with heq | hlt
  · rw [heq]
    exact roundAt_mono _ hxy
  · have hxu : x < (2:ℚ)^(Int.log 2 x + 1) :=
      Int.lt_zpow_succ_log_self (by norm_num) x
    have hyl : (2:ℚ)^(Int.log 2 y) ≤ y := Int.zpow_log_le_self (by norm_num) hy
    calc roundAt (Int.log 2 x - 52) x ≤ (2:ℚ)^(Int.log 2 x + 1) :=
          roundAt_le_binade_top hxu
      _ ≤ (2:ℚ)^(Int.log 2 y) := zpow_le_zpow_right₀ (by norm_num) (by omega)
      _ ≤ roundAt (Int.log 2 y - 52) y := roundAt_ge_binade_bot hyl

/-- Evaluation scheme for `roundDouble` at a positive rational: supply the
binade exponent `k` and the rounded scaled mantissa `n`. -/
theorem roundDouble_eq_of (q v : ℚ) (k n : ℤ) (hq : 0 < q)
    (h1 : (2:ℚ)^k ≤ q) (h2 : q < (2:ℚ)^(k+1))
    (hr : rhe (q * (2:ℚ)^(52 - k)) = n)
    (hv : (n:ℚ) * (2:ℚ)^(k - 52) = v) :
    roundDouble q = v := by
  rw [roundDouble_pos_eq hq, log2_of_bounds hq h1 h2]
  unfold roundAt
  rw [show -(k-52) = 52 - k by ring, hr, hv]

/-! ## The binary64 values of the priority constants -/

theorem dv05 : roundDouble (5/10) = 1/2 := by
  refine roundDouble_eq_of _ _ (-1) 4503599627370496 (by norm_num) (by norm_num)
    (by norm_num) ?_ (by norm_num)
  exact rhe_eq_of_lt 4503599627370496 (by norm_num) (by norm_num)

theorem dv07 : roundDouble (7/10) = 3152519739159347 / 2^52 := by
  refine roundDouble_eq_of _ _ (-1) 6305039478318694 (by norm_num) (by norm_num)
    (by norm_num) ?_ (by norm_num)
  exact rhe_eq_of_lt 6305039478318694 (by norm_num) (by norm_num)

theorem dv09 : roundDouble (9/10) = 8106479329266893 / 2^53 := by
  refine roundDouble_eq_of _ _ (-1) 8106479329266893 (by norm_num) (by norm_num)
    (by norm_num) ?_ (by norm_num)
  exact rhe_eq_of_gt 8106479329266892 (by norm_num) (by norm_num)

theorem dv095 : roundDouble (95/100) = 4278419646001971 / 2^52 := by
  refine roundDouble_eq_of _ _ (-1) 8556839292003942 (by norm_num) (by norm_num)
    (by norm_num) ?_ (by norm_num)
  exact rhe_eq_of_lt 8556839292003942 (by norm_num) (by norm_num)

theorem dv02 : roundDouble (2/10) = 3602879701896397 / 2^54 := by
  refine roundDouble_eq_of _ _ (-3) 7205759403792794 (by norm_num) (by norm_num)
    (by norm_num) ?_ (by norm_num)
  exact rhe_eq_of_gt 7205759403792793 (by norm_num) (by norm_num)

theorem dv01 : roundDouble (1/10) = 3602879701896397 / 2^55 := by
  refine roundDouble_eq_of _ _ (-4) 7205759403792794 (by norm_num) (by norm_num)
    (by norm_num) ?_ (by norm_num)
  exact rhe_eq_of_gt 7205759403792793 (by norm_num) (by norm_num)

/-- The binary64 sum 0.7 + 0.2 is a tie, broken DOWN to the even mantissa:
it lands strictly below the binary64 value of 0.9 (CPython:
`0.7 + 0.2 == 0.8999999999999999`). -/
theorem sum_07_02 :
    fadd (3152519739159347 / 2^52) (3602879701896397 / 2^54) =
      2026619832316723 / 2^51 := by
  unfold fadd
  refine roundDouble_eq_of _ _ (-1) 8106479329266892 (by norm_num) (by norm_num)
    (by norm_num) ?_ (by norm_num)
  exact rhe_eq_tie_even 8106479329266892 (by norm_num) (by norm_num)

/-- The binary64 sum 0.95 + 0.2 (= 1.15 as a double). -/
theorem sum_095_02 :
    fadd (4278419646001971 / 2^52) (3602879701896397 / 2^54) =
      2589569785738035 / 2^51 := by
  unfold fadd
  refine roundDouble_eq_of _ _ 0 5179139571476070 (by norm_num) (by norm_num)
    (by norm_num) ?_ (by norm_num)
  exact rhe_eq_of_lt 5179139571476070 (by norm_num) (by norm_num)

/-- The binary64 sum 1.15 + 0.1 (= 1.25 exactly). -/
theorem sum_115_01 :
    fadd (2589569785738035 / 2^51) (3602879701896397 / 2^55) = 5/4 := by
  unfold fadd
  refine roundDouble_eq_of _ _ 0 5629499534213120 (by norm_num) (by norm_num)
    (by norm_num) ?_ (by norm_num)
  exact rhe_eq_of_gt 5629499534213119 (by norm_num) (by norm_num)

/-! ## Priority lemmas -/

theorem fadd_pos {x c : ℚ} (hx : 0 ≤ x) (hc : 0 < c) : 0 < fadd x c :=
  roundDouble_pos (by linarith)

theorem fadd_mono_right {c : ℚ} (hc : 0 < c) {x y : ℚ} (hx : 0 ≤ x)
    (h : x ≤ y) : fadd x c ≤ fadd y c :=
  roundDouble_mono (by linarith) (by linarith)

/-- Monotonicity of the final bucketing, for any thresholds and any two
scores in order. -/
theorem rankBucketMono (t u v x y : ℚ) (h : x ≤ y) :
    priorityRank (if x ≥ t then "urgent"
      else if x ≥ u then "high"
      else if x ≥ v then "medium" else "low") ≤
    priorityRank (if y ≥ t then "urgent"
      else if y ≥ u then "high"
      else if y ≥ v then "medium" else "low") := by
  split_ifs <;> simp [priorityRank] <;> linarith

/-- With no bonus flags, `priority_score` is the raw match score. -/
theorem score_plain (m : ℚ) : priorityScore m oppPlain = m := by
  unfold priorityScore
  norm_num [oppPlain]

/-- The score of the spec's scenario (match 0.95, urgent, amount 15M): two
rounded additions yield the double 1.25. -/
theorem score_scenario : priorityScore (roundDouble (95/100)) opp0 = 5/4 := by
  simp only [priorityScore]
  rw [if_pos (show opp0.urgent = true from rfl),
    if_pos (show opp0.investment_amount ≥ 10000000 by norm_num [opp0]),
    if_neg (show ¬(opp0.competitive_situation = true) by norm_num [opp0]),
    dv095, dv02, sum_095_02, dv01, sum_115_01]

/-- The score of an urgent small deal at match 0.7: the rounded 0.7 + 0.2,
which is strictly below the double 0.9. -/
theorem score_urgent_small :
    priorityScore (roundDouble (7/10)) oppUrgentSmall =
      2026619832316723 / 2^51 := by
  simp only [priorityScore]
  rw [if_pos (show oppUrgentSmall.urgent = true from rfl),
    if_neg (show ¬(oppUrgentSmall.investment_amount ≥ 10000000) by
      norm_num [oppUrgentSmall]),
    if_neg (show ¬(oppUrgentSmall.competitive_situation = true) by
      norm_num [oppUrgentSmall]),
    dv07, dv02, sum_07_02]

/-- The computed score is monotone in the match score (for non-negative
scores, every rounded addition has a positive argument). -/
theorem priorityScore_mono (m m' : ℚ) (opp : Opportunity) (h0 : 0 ≤ m)
    (h : m ≤ m') : priorityScore m opp ≤ priorityScore m' opp := by
  have hD02 : (0:ℚ) < roundDouble (2/10) := roundDouble_pos (by norm_num)
  have hD01 : (0:ℚ) < roundDouble (1/10) := roundDouble_pos (by norm_num)
  simp only [priorityScore]
  by_cases hu : opp.urgent = true
  · by_cases hl : opp.investment_amount ≥ 10000000
    · by_cases hcs : opp.competitive_situation = true
      · simp only [if_pos hu, if_pos hl, if_pos hcs]
        exact fadd_mono_right hD01
          (le_of_lt (fadd_pos (le_of_lt (fadd_pos h0 hD02)) hD01))
          (fadd_mono_right hD01 (le_of_lt (fadd_pos h0 hD02))
            (fadd_mono_right hD02 h0 h))
      · simp only [if_pos hu, if_pos hl, if_neg hcs]
        exact fadd_mono_right hD01 (le_of_lt (fadd_pos h0 hD02))
          (fadd_mono_right hD02 h0 h)
    · by_cases hcs : opp.competitive_situation = true
      · simp only [if_pos hu, if_neg hl, if_pos hcs]
        exact fadd_mono_right hD01 (le_of_lt (fadd_pos h0 hD02))
          (fadd_mono_right hD02 h0 h)
      · simp only [if_pos hu, if_neg hl, if_neg hcs]
        exact fadd_mono_right hD02 h0 h
  · by_cases hl : opp.investment_amount ≥ 10000000
    · by_cases hcs : opp.competitive_situation = true
      · simp only [if_neg hu, if_pos hl, if_pos hcs]
        exact fadd_mono_right hD01 (le_of_lt (fadd_pos h0 hD01))
          (fadd_mono_right hD01 h0 h)
      · simp only [if_neg hu, if_pos hl, if_neg hcs]
        exact fadd_mono_right hD01 h0 h
    · by_cases hcs : opp.competitive_situation = true
      · simp only [if_neg hu, if_neg hl, if_pos hcs]
        exact fadd_mono_right hD01 h0 h
      · simp only [if_neg hu, if_neg hl, if_neg hcs]
        exact h

theorem calculate_priority_mono (m m' : ℚ) (opp : Opportunity) (h0 : 0 ≤ m)
    (h : m ≤ m') :
    priorityRank (calculate_priority m opp) ≤
      priorityRank (calculate_priority m' opp) := by
  unfold calculate_priority
  exact rankBucketMono _ _ _ _ _ (priorityScore_mono m m' opp h0 h)

/-! ## Claims -/

/-- C1, counterexample: a pending alert with one enabled SMS channel whose
transport delivers.  The result map records the SMS delivery, yet the
status stays `"pending"` — a delivered non-email channel does not advance
the status, contradicting "regardless of which channel delivered". -/
theorem C1_counterexample :
    (sendAlert (fun _ => SendOutcome.success) aSms).2 AlertChannel.sms = some true ∧
    aSms.status = "pending" ∧
    (sendAlert (fun _ => SendOutcome.success) aSms).1.status = "pending" := by
  refine ⟨by decide, by decide, by decide⟩

/-- C1, amended: after a dispatch of a pending alert, the status is
`"sent"` iff the channel list has an enabled email config and the email
transport succeeded (only `send_alert_email` writes `status`); any other
delivered channel leaves the status `"pending"`. -/
theorem C1_amended_email_only_advances_status (env : AlertChannel → SendOutcome)
    (a : Alert) (h : a.status = "pending") :
    (sendAlert env a).1.status =
      if (a.channels.any fun cc =>
            cc.enabled && decide (cc.channel = AlertChannel.email)) &&
          decide (env AlertChannel.email = SendOutcome.success) then "sent"
      else "pending" := by
  have hst := sendAlert_foldl_status env a.channels a (fun _ => none)
  rw [h] at hst
  exact hst

/-- C1, witness: dispatching the pending single-email-channel alert with a
succeeding transport yields status `"sent"`. -/
theorem C1_witness :
    (sendAlert (fun _ => SendOutcome.success) aEmail).1.status = "sent" :=
  (C1_amended_email_only_advances_status (fun _ => SendOutcome.success) aEmail
    (by decide)).trans (by decide)

/-- C2, counterexample: an enabled SMS channel whose attempt raises an
exception gets `delivery_status = "error"`, but its `retry_count` is NOT
incremented (the `except` branch of `send_alert` skips the increment),
contradicting "on an exception ... retry_count[kind] is incremented". -/
theorem C2_counterexample :
    (sendAlert (fun _ => SendOutcome.raised) aSms).1.delivery_status
      AlertChannel.sms = some "error" ∧
    aSms.retry_count AlertChannel.sms = 0 ∧
    (sendAlert (fun _ => SendOutcome.raised) aSms).1.retry_count
      AlertChannel.sms = 0 := by
  refine ⟨by decide, by decide, by decide⟩

/-- C2, amended: for an enabled channel (unique for its kind in the list):
a sender failure records `"failed"` and increments the retry count; an
exception records `"error"` and leaves the retry count unchanged; a success
records `"delivered"` without incrementing.  Every enabled channel gets a
result entry — an exception on one channel neither stops the loop nor
escapes `send_alert` (which is total). -/
theorem C2_amended_channel_outcomes (env : AlertChannel → SendOutcome)
    (a : Alert) (cc : AlertChannelConfig) (hmem : cc ∈ a.channels)
    (hnd : (a.channels.map AlertChannelConfig.channel).Nodup)
    (hen : cc.enabled = true) :
    (env cc.channel = SendOutcome.failure →
      (sendAlert env a).1.delivery_status cc.channel = some "failed" ∧
      (sendAlert env a).1.retry_count cc.channel =
        a.retry_count cc.channel + 1) ∧
    (env cc.channel = SendOutcome.raised →
      (sendAlert env a).1.delivery_status cc.channel = some "error" ∧
      (sendAlert env a).1.retry_count cc.channel = a.retry_count cc.channel) ∧
    (env cc.channel = SendOutcome.success →
      (sendAlert env a).1.delivery_status cc.channel = some "delivered" ∧
      (sendAlert env a).1.retry_count cc.channel = a.retry_count cc.channel) ∧
    (sendAlert env a).2 cc.channel =
      some (decide (env cc.channel = SendOutcome.success)) := by
  obtain ⟨l₁, l₂, hsplit⟩ := List.append_of_mem hmem
  rw [hsplit, List.map_append, List.map_cons] at hnd
  obtain ⟨hnd₁, hnd₂, hdisj⟩ := List.nodup_append.mp hnd
  have h₂ : ∀ x ∈ l₂, x.channel ≠ cc.channel := by
    intro x hx heq
    exact (List.nodup_cons.mp hnd₂).1 (heq ▸ List.mem_map_of_mem _ hx)
  have h₁ : ∀ x ∈ l₁, x.channel ≠ cc.channel := by
    intro x hx heq
    have hmm : cc.channel ∈ List.map AlertChannelConfig.channel l₁ := by
      rw [← heq]
      exact List.mem_map_of_mem _ hx
    exact hdisj hmm (by simp)
  have hpre := sendAlert_foldl_preserve env l₁ cc.channel
    (fun x hx => Or.inl (h₁ x hx)) (a, fun _ => none)
  have hset := sendAlertStep_set env
    (List.foldl (sendAlertStep env) (a, fun _ => none) l₁) cc hen
  have hpost := sendAlert_foldl_preserve env l₂ cc.channel
    (fun x hx => Or.inl (h₂ x hx))
    (sendAlertStep env (List.foldl (sendAlertStep env) (a, fun _ => none) l₁) cc)
  have hfin : sendAlert env a =
      List.foldl (sendAlertStep env)
        (sendAlertStep env
          (List.foldl (sendAlertStep env) (a, fun _ => none) l₁) cc) l₂ := by
    unfold sendAlert
    rw [hsplit, List.foldl_append, List.foldl_cons]
  rw [hfin]
  refine ⟨?_, ?_, ?_, ?_⟩
  · intro he
    rw [he] at hset
    constructor
    · rw [hpost.1, hset.1]
    · rw [hpost.2.1, hset.2.1]
      simp [hpre.2.1]
  · intro he
    rw [he] at hset
    constructor
    · rw [hpost.1, hset.1]
    · rw [hpost.2.1, hset.2.1]
      simp [hpre.2.1]
  · intro he
    rw [he] at hset
    constructor
    · rw [hpost.1, hset.1]
    · rw [hpost.2.1, hset.2.1]
      simp [hpre.2.1]
  · rw [hpost.2.2, hset.2.2]

/-- C2, witness: the failure clause of the amended claim evaluated on the
single-SMS-channel pending alert with a failing transport. -/
theorem C2_witness :
    (sendAlert (fun _ => SendOutcome.failure) aSms).1.delivery_status
      AlertChannel.sms = some "failed" ∧
    (sendAlert (fun _ => SendOutcome.failure) aSms).1.retry_count
      AlertChannel.sms = aSms.retry_count AlertChannel.sms + 1 :=
  (C2_amended_channel_outcomes (fun _ => SendOutcome.failure) aSms smsCfg
    (by decide) (by decide) (by decide)).1 rfl

/-- C3, counterexample: starting from a fresh pending alert with one
enabled SMS channel and a transport that always fails, four consecutive
dispatches drive `retry_count["sms"]` to 4 > `max_retries` — `send_alert`
enforces no bound, so the "never exceeds max_retries under any sequence of
dispatches and retry sweeps" claim fails. -/
theorem C3_counterexample :
    (dispatchFail (dispatchFail (dispatchFail (dispatchFail aSms)))).retry_count
      AlertChannel.sms = 4 ∧
    max_retries < 4 := by
  refine ⟨by decide, by decide⟩

/-- C3, amended: the retry sweeper respects the bound — a sweep keeps
`retry_count[kind] ≤ max_retries` whenever it already holds, never touches
a kind whose count has reached `max_retries` (its count and delivery status
are unchanged, so repeated sweeps are idempotent for that kind), and a
sweep over a whole store preserves the bound for every alert.  Dispatches
(`send_alert`), however, increment without any bound (see the
counterexample). -/
theorem C3_amended_retry_bound (env : AlertChannel → Bool) (a : Alert)
    (k : AlertChannel) :
    (a.retry_count k ≤ max_retries →
      (retryAlert env a).retry_count k ≤ max_retries) ∧
    (max_retries ≤ a.retry_count k →
      (retryAlert env a).retry_count k = a.retry_count k ∧
      (retryAlert env a).delivery_status k = a.delivery_status k) ∧
    (∀ store : List Alert, (∀ x ∈ store, x.retry_count k ≤ max_retries) →
      ∀ y ∈ retry_failed_alerts env store, y.retry_count k ≤ max_retries) := by
  refine ⟨(retryAlert_foldl_rc env a.channels a k).1,
    (retryAlert_foldl_rc env a.channels a k).2, ?_⟩
  intro store hst y hy
  obtain ⟨x, hx, rfl⟩ := List.mem_map.mp hy
  exact (retryAlert_foldl_rc env x.channels x k).1 (hst x hx)

/-- C3, witness: the bound clause on the fresh SMS alert and the
exhausted-kind clause on the alert whose SMS retries are used up. -/
theorem C3_witness :
    (retryAlert (fun _ => false) aSms).retry_count AlertChannel.sms ≤
      max_retries ∧
    (retryAlert (fun _ => false) a3).retry_count AlertChannel.sms =
      a3.retry_count AlertChannel.sms ∧
    (retryAlert (fun _ => false) a3).delivery_status AlertChannel.sms =
      a3.delivery_status AlertChannel.sms :=
  ⟨(C3_amended_retry_bound (fun _ => false) aSms AlertChannel.sms).1 (by decide),
   (C3_amended_retry_bound (fun _ => false) a3 AlertChannel.sms).2.1 (by decide)⟩

/-- C4, counterexample: `send_alert` on an expired alert with an enabled
SMS channel is not a no-op — the channel is attempted, the result map is
non-empty, and `delivery_status` is mutated. -/
theorem C4_counterexample :
    aExpSms.status = "expired" ∧
    (sendAlert (fun _ => SendOutcome.success) aExpSms).2 AlertChannel.sms =
      some true ∧
    (sendAlert (fun _ => SendOutcome.success) aExpSms).1.delivery_status
      AlertChannel.sms = some "delivered" := by
  refine ⟨by decide, by decide, by decide⟩

/-- C4, amended: `send_alert` never inspects the alert's status — its
result map is the same whatever the status is — and it is a no-op (alert
unchanged, empty result map) exactly in the case where no channel in the
list is enabled, not because the status is `read` or `expired`. -/
theorem C4_amended_dispatch_ignores_status (env : AlertChannel → SendOutcome)
    (a : Alert) (s : String) :
    (sendAlert env { a with status := s }).2 = (sendAlert env a).2 ∧
    ((∀ cc ∈ a.channels, cc.enabled = false) →
      sendAlert env a = (a, fun _ => none)) := by
  constructor
  · exact sendAlert_foldl_results_indep env a.channels (fun _ => none)
      { a with status := s } a
  · intro h
    exact sendAlert_foldl_disabled env a.channels h (a, fun _ => none)

/-- C4, witness: status-independence of the result map for the empty
channel list, and the no-op clause on the channel-less alert. -/
theorem C4_witness :
    (sendAlert (fun _ => SendOutcome.success)
      { baseAlert with status := "expired" }).2 =
      (sendAlert (fun _ => SendOutcome.success) baseAlert).2 ∧
    sendAlert (fun _ => SendOutcome.success) baseAlert =
      (baseAlert, fun _ => none) :=
  ⟨(C4_amended_dispatch_ignores_status (fun _ => SendOutcome.success)
      baseAlert "expired").1,
   (C4_amended_dispatch_ignores_status (fun _ => SendOutcome.success)
      baseAlert "expired").2 (by simp [baseAlert])⟩

/-- C5, counterexample: `read`/`expired` are not terminal — a successful
email delivery (here, a dispatch of an expired alert whose email transport
succeeds) rewrites the status back to `"sent"`, because
`send_alert_email` sets it unconditionally. -/
theorem C5_counterexample :
    aExpEmail.status = "expired" ∧
    (sendAlert (fun _ => SendOutcome.success) aExpEmail).1.status = "sent" := by
  refine ⟨by decide, by decide⟩

/-- C5, amended: the engine's operations are not monotonic and respect no
terminal states; what does hold is that the only status values they ever
write are `"sent"` (dispatch and retry, via `send_alert_email`, from any
prior status) and `"expired"` (cleanup, for any alert past its expiry,
whatever its status). -/
theorem C5_amended_status_writes (env : AlertChannel → SendOutcome)
    (envr : AlertChannel → Bool) (now : Int) (a : Alert) :
    ((sendAlert env a).1.status = a.status ∨
      (sendAlert env a).1.status = "sent") ∧
    ((retryAlert envr a).status = a.status ∨
      (retryAlert envr a).status = "sent") ∧
    ((cleanupAlert now a).status = a.status ∨
      (cleanupAlert now a).status = "expired") := by
  refine ⟨?_, retryAlert_foldl_status envr a.channels a, ?_⟩
  · have hst := sendAlert_foldl_status env a.channels a (fun _ => none)
    unfold sendAlert
    rw [hst]
    split_ifs <;> simp
  · unfold cleanupAlert
    split_ifs <;> simp

/-- C6, counterexample: the program computes in binary64, where
`0.7 + 0.2 = 0.8999999999999999 < 0.9`, so at match score 0.7 (as a
double) with an urgent flag `_calculate_priority` returns `"high"`, while
the claim's exact sum-then-bucket map (`prioritySpec`, the spec's words)
gives `"urgent"`: the 0.9 boundary is not an exact inclusive lower bound
of the ideal sum. -/
theorem C6_counterexample :
    calculate_priority (roundDouble (7/10)) oppUrgentSmall = "high" ∧
    prioritySpec (7/10) true 1000 false = "urgent" ∧
    ("high" : String) ≠ "urgent" := by
  refine ⟨?_, ?_, by decide⟩
  · unfold calculate_priority
    rw [score_urgent_small, dv09, dv07]
    norm_num
  · norm_num [prioritySpec]

/-- C6, amended: `_calculate_priority` is pure and reproducible but
computes in binary64: each bonus is a correctly rounded addition and the
bucket thresholds are the doubles nearest 0.9/0.7/0.5.  It is monotonically
non-decreasing in the match score (for the non-negative scores the program
uses); the spec's scenario (0.95, urgent, €15M) still yields `"urgent"`;
and the thresholds are inclusive lower bounds of the COMPUTED score:
with no bonuses the double thresholds are hit exactly, and any score below
a threshold falls into the lower bucket.  The rounded sum can land below
the ideal boundary (see the counterexample). -/
theorem C6_amended_float_priority (m m' : ℚ) (opp : Opportunity)
    (h0 : 0 ≤ m) (h : m ≤ m') :
    priorityRank (calculate_priority m opp) ≤
      priorityRank (calculate_priority m' opp) ∧
    calculate_priority (roundDouble (95/100)) opp0 = "urgent" ∧
    calculate_priority (roundDouble (9/10)) oppPlain = "urgent" ∧
    calculate_priority (roundDouble (7/10)) oppPlain = "high" ∧
    calculate_priority (roundDouble (5/10)) oppPlain = "medium" ∧
    (∀ x : ℚ, x < roundDouble (9/10) →
      calculate_priority x oppPlain ≠ "urgent") ∧
    (∀ x : ℚ, x < roundDouble (7/10) →
      calculate_priority x oppPlain ≠ "urgent" ∧
      calculate_priority x oppPlain ≠ "high") ∧
    (∀ x : ℚ, x < roundDouble (5/10) →
      calculate_priority x oppPlain = "low") := by
  have h79 : roundDouble (7/10) < roundDouble (9/10) := by
    rw [dv07, dv09]
    norm_num
  have h57 : roundDouble (5/10) < roundDouble (7/10) := by
    rw [dv05, dv07]
    norm_num
  refine ⟨calculate_priority_mono m m' opp h0 h, ?_, ?_, ?_, ?_, ?_, ?_, ?_⟩
  · unfold calculate_priority
    rw [score_scenario, dv09]
    norm_num
  · unfold calculate_priority
    rw [score_plain, if_pos (le_refl _)]
  · unfold calculate_priority
    rw [score_plain, if_neg (not_le.mpr h79), if_pos (le_refl _)]
  · unfold calculate_priority
    rw [score_plain, if_neg (not_le.mpr (lt_trans h57 h79)),
      if_neg (not_le.mpr h57), if_pos (le_refl _)]
  · intro x hx
    unfold calculate_priority
    rw [score_plain, if_neg (not_le.mpr hx)]
    split_ifs <;> decide
  · intro x hx
    unfold calculate_priority
    rw [score_plain, if_neg (not_le.mpr (lt_trans hx h79)),
      if_neg (not_le.mpr hx)]
    constructor <;> split_ifs <;> decide
  · intro x hx
    unfold calculate_priority
    rw [score_plain, if_neg (not_le.mpr (lt_trans hx (lt_trans h57 h79))),
      if_neg (not_le.mpr (lt_trans hx h57)), if_neg (not_le.mpr hx)]

/-- C6, witness: the monotonicity clause evaluated at 0 ≤ 1/2 on the
bonus-free opportunity. -/
theorem C6_witness :
    priorityRank (calculate_priority 0 oppPlain) ≤
      priorityRank (calculate_priority (1/2) oppPlain) :=
  (C6_amended_float_priority 0 (1/2) oppPlain (by norm_num) (by norm_num)).1

/-- C7, confirmed: `cleanup_expired_alerts` is idempotent on the store for
a fixed current time, and it is a field-level no-op on an alert whose
status is already `"expired"`. -/
theorem C7_cleanup_idempotent (now : Int) (store : List Alert) (a : Alert)
    (h : a.status = "expired") :
    cleanup_expired_alerts now (cleanup_expired_alerts now store) =
      cleanup_expired_alerts now store ∧
    cleanupAlert now a = a := by
  constructor
  · simp [cleanup_expired_alerts, List.map_map, Function.comp, cleanupAlert_idem]
  · cases a with
    | mk id investor_id opportunity_id title description match_score
        timestamp expires_at priority status notification_attempts
        channels delivery_status retry_count =>
      simp only at h
      subst h
      unfold cleanupAlert
      split <;> rfl

/-- C7, witness: idempotence on a one-alert store and the no-op on the
concrete expired alert. -/
theorem C7_witness :
    cleanup_expired_alerts 200 (cleanup_expired_alerts 200 [aExpired]) =
      cleanup_expired_alerts 200 [aExpired] ∧
    cleanupAlert 200 aExpired = aExpired :=
  C7_cleanup_idempotent 200 [aExpired] aExpired (by decide)

/-- C8, counterexample: preferences selecting SMS with no stored phone
number.  `create_alert` happily includes the SMS channel with address
`None` (no "non-empty contact address" requirement) and persists the
alert; no `ValidationError` exists anywhere in the code path. -/
theorem C8_counterexample :
    (create_alert [] (some prefsSmsNoPhone) "inv1" opp0 (1/2) 0 48).1.channels =
      [⟨AlertChannel.sms, true, [("phone", none)]⟩] ∧
    (create_alert [] (some prefsSmsNoPhone) "inv1" opp0 (1/2) 0 48).2.length = 1 := by
  refine ⟨by decide, by decide⟩

/-- Congruence step for the channel-list construction: one conditional
append preserves "same kinds" when the appended configs have the same
kind. -/
theorem mapChannelIf {c : Prop} [Decidable c] {l l' : List AlertChannelConfig}
    {x x' : AlertChannelConfig}
    (hl : l.map AlertChannelConfig.channel = l'.map AlertChannelConfig.channel)
    (hx : x.channel = x'.channel) :
    (if c then l ++ [x] else l).map AlertChannelConfig.channel =
      (if c then l' ++ [x'] else l').map AlertChannelConfig.channel := by
  split_ifs <;> simp [hl, hx]

/-- C8, amended: channel inclusion depends only on the preferences'
`channels` list — two preference documents with the same `channels` yield
channel lists of exactly the same kinds, whatever addresses they store (the
addresses are copied unvalidated, possibly `None`) — and `create_alert`
always appends the new alert to the store, with no validation step before
persistence. -/
theorem C8_amended_no_address_validation (p p' : Preferences) (inv : String)
    (h : p.channels = p'.channels) (store : List Alert)
    (sp : Option Preferences) (opp : Opportunity) (m : ℚ) (now ttl : Int) :
    (buildChannels p inv).map AlertChannelConfig.channel =
      (buildChannels p' inv).map AlertChannelConfig.channel ∧
    (create_alert store sp inv opp m now ttl).2 =
      store ++ [(create_alert store sp inv opp m now ttl).1] := by
  constructor
  · simp only [buildChannels]
    rw [h]
    exact mapChannelIf (mapChannelIf (mapChannelIf (mapChannelIf
      (mapChannelIf (mapChannelIf rfl rfl) rfl) rfl) rfl) rfl) rfl
  · rfl

/-- C8, witness: same-kinds clause for the two SMS preference documents
(with and without stored addresses), and unconditional persistence for the
address-less one. -/
theorem C8_witness :
    (buildChannels prefsSmsNoPhone "inv1").map AlertChannelConfig.channel =
      (buildChannels prefsSmsFull "inv1").map AlertChannelConfig.channel ∧
    (create_alert [] (some prefsSmsNoPhone) "inv1" opp0 (1/2) 0 48).2 =
      [] ++ [(create_alert [] (some prefsSmsNoPhone) "inv1" opp0 (1/2) 0 48).1] :=
  C8_amended_no_address_validation prefsSmsNoPhone prefsSmsFull "inv1" rfl
    [] (some prefsSmsNoPhone) opp0 (1/2) 0 48

/-- C10, counterexample: a preference document that omits the `channels`
key but stores an email address.  The default email channel then carries
that address, not `{"email": None}`, so the claim's "address map is
{"email": None}" fails for this investor. -/
theorem C10_counterexample :
    (create_alert [] (some prefsEmailAddr) "inv1" opp0 (1/2) 0 48).1.channels =
      [⟨AlertChannel.email, true, [("email", some "a@b")]⟩] ∧
    (create_alert [] (some prefsEmailAddr) "inv1" opp0 (1/2) 0 48).1.channels ≠
      [⟨AlertChannel.email, true, [("email", none)]⟩] := by
  refine ⟨by decide, by decide⟩

/-- C10, amended: when the preferences omit the `channels` key the channel
list is exactly one enabled email channel carrying the stored email address
(possibly `None`) — email is included by default with no contact-address
requirement — and for an investor with no stored preferences at all the
address is `{"email": None}`. -/
theorem C10_amended_default_email_channel (p : Preferences) (inv : String)
    (hp : p.channels = none) (store : List Alert) (opp : Opportunity)
    (m : ℚ) (now ttl : Int) :
    buildChannels p inv =
      [⟨AlertChannel.email, true, [("email", p.email)]⟩] ∧
    (create_alert store none inv opp m now ttl).1.channels =
      [⟨AlertChannel.email, true, [("email", none)]⟩] := by
  constructor
  · simp [buildChannels, hp]
  · rfl

/-- C10, witness: the empty preferences document (no stored preferences)
instantiates the amended claim with address `{"email": None}`. -/
theorem C10_witness :
    buildChannels emptyPreferences "inv1" =
      [⟨AlertChannel.email, true, [("email", none)]⟩] ∧
    (create_alert [] none "inv1" opp0 (1/2) 0 48).1.channels =
      [⟨AlertChannel.email, true, [("email", none)]⟩] :=
  C10_amended_default_email_channel emptyPreferences "inv1" rfl [] opp0
    (1/2) 0 48
